import Mathlib

/-!
Verification development for the EPC_revealer repository.

The repository implements a device-discovery engine (`src/revealer.py`) and a
display layer (`src/main_window.py`).  This file gives a shallow embedding of
the engine and the display layer handlers and proves properties about them.

Modelling conventions:
* network and asyncio effects are replaced by explicit environments: each
  interface address carries the list of datagrams that arrive within its wait
  window, and the identify phase receives a function from URL to fetch outcome;
* the cooperatively checked `stop_search` flag, which a concurrent `stop()`
  call may set at any moment, is modelled by a schedule `sched : Nat → Bool`
  consulted once per checkpoint in program order (checkpoint k reads `sched k`);
* Qt signal emissions become entries of an explicit event list, in emission
  order;
* logging, the Qt timer object and socket handles are not modelled.
-/

namespace EPCRevealer

/-- Boolean test that the first character list is an initial segment of the
second (the comparison underlying Python `str.startswith`). -/
def listIsPre : List Char → List Char → Bool
  | [], _ => true
  | _ :: _, [] => false
  | a :: as, b :: bs => a == b && listIsPre as bs

/-- Boolean test that `pat` occurs contiguously inside the second list
(the comparison underlying Python `pat in html`). -/
def listHasInfix (pat : List Char) : List Char → Bool
  | [] => listIsPre pat []
  | c :: rest => listIsPre pat (c :: rest) || listHasInfix pat rest

/-- Python `str.lower`, modelled on the characters that occur in the signature
table of `analyze_page`: ASCII letters and the Russian Cyrillic block
U+0410 to U+042F (plus Ё U+0401).  Other characters are left unchanged. -/
def pyLowerChar (c : Char) : Char :=
  if 65 ≤ c.toNat && c.toNat ≤ 90 then Char.ofNat (c.toNat + 32)
  else if 0x410 ≤ c.toNat && c.toNat ≤ 0x42F then Char.ofNat (c.toNat + 32)
  else if c.toNat == 0x401 then Char.ofNat 0x451
  else c

/-- Lower-casing of a whole string, `html.lower()` in `analyze_page`. -/
def pyLower (s : String) : String := String.mk (s.data.map pyLowerChar)

/-- Python substring containment `pat in hay` on strings. -/
def containsSub (hay pat : String) : Bool := listHasInfix pat.data hay.data

/-- Device name constants from class `Devices` in `src/revealer.py`. -/
def Devices.ASA : String := "АСА"

/-- Device name `EyePoint H10` from class `Devices`. -/
def Devices.EYE_POINT_H10 : String := "EyePoint H10"

/-- Device name `EyePoint S2` from class `Devices`. -/
def Devices.EYE_POINT_S2 : String := "EyePoint S2"

/-- Device name `STANDAMELLON` from class `Devices`. -/
def Devices.STANDAMELLON : String := "STANDAMELLON"

/-- Device name `БВВУ` from class `Devices`. -/
def Devices.UIOB : String := "БВВУ"

/-- Embedding of `analyze_page` (`src/revealer.py`, lines 19-36): lower-case
the page body, then try the five signature substrings in source order and
return the device of the first one found, or `none`. -/
def analyze_page (html : String) : Option String :=
  let h := pyLower html
  if containsSub h "аса" then some Devices.ASA
  else if containsSub h "eyepoint h10" then some Devices.EYE_POINT_H10
  else if containsSub h "eyepoint s2" then some Devices.EYE_POINT_S2
  else if containsSub h "standamellon" then some Devices.STANDAMELLON
  else if containsSub h "бвву" then some Devices.UIOB
  else none

/-- The ordered signature table of `analyze_page`: pattern paired with the
device it classifies, in the priority order of the source. -/
def patterns : List (String × String) :=
  [("аса", Devices.ASA),
   ("eyepoint h10", Devices.EYE_POINT_H10),
   ("eyepoint s2", Devices.EYE_POINT_S2),
   ("standamellon", Devices.STANDAMELLON),
   ("бвву", Devices.UIOB)]

/-- C5: page classification is a case-insensitive substring match tried in the
fixed priority order АСА, EyePoint H10, EyePoint S2, STANDAMELLON, БВВУ where
the first match wins: `analyze_page` agrees with `List.find?` over the ordered
pattern table, so a body containing the signatures of two kinds is classified
as the one earlier in the order, and a body containing no pattern yields no
classification.  Concretely, a body holding both the STANDAMELLON and the
EyePoint H10 signatures is classified EyePoint H10. -/
theorem analyze_page_first_match_wins :
    (∀ html : String,
      analyze_page html =
        (patterns.find? (fun p => containsSub (pyLower html) p.1)).map Prod.snd) ∧
    analyze_page "STANDAMELLON admin — EyePoint H10" = some Devices.EYE_POINT_H10 ∧
    analyze_page "hello world" = none := by
  refine ⟨fun html => ?_, by decide, by decide⟩
  unfold analyze_page patterns
  cases h1 : containsSub (pyLower html) "аса" <;>
    cases h2 : containsSub (pyLower html) "eyepoint h10" <;>
      cases h3 : containsSub (pyLower html) "eyepoint s2" <;>
        cases h4 : containsSub (pyLower html) "standamellon" <;>
          cases h5 : containsSub (pyLower html) "бвву" <;>
            simp [h1, h2, h3, h4, h5, List.find?]

/-- Events emitted by the engine, one constructor per `pyqtSignal` of class
`Revealer`.  Note that `deviceIdentified` mirrors
`device_identified = pyqtSignal(str, str)`: it carries an address and a device
name but, unlike the four other signals, no revealer number. -/
inductive Event where
  | started (number : Int)
  | deviceFound (number : Int) (address : String)
  | deviceIdentified (address : String) (device : String)
  | completed (number : Int)
  | stopped (number : Int)
deriving DecidableEq, Repr

/-- The revealer number carried by an event, when it carries one.  Only
`deviceIdentified` carries none. -/
def Event.cycleNumber : Event → Option Int
  | .started n => some n
  | .deviceFound n _ => some n
  | .deviceIdentified _ _ => none
  | .completed n => some n
  | .stopped n => some n

/-- Whether an event is a `deviceFound` emission. -/
def Event.isFound : Event → Bool
  | .deviceFound _ _ => true
  | _ => false

/-- Outcome of one HTTP fetch in the identify phase: a page body, a timeout
(`asyncio.TimeoutError`), or any other exception (connection refused,
malformed response, ...). -/
inductive FetchResult where
  | ok (html : String)
  | timeout
  | fetchErr
deriving DecidableEq, Repr

/-- The fixed HTTP port, `PORT = 8080` in `src/revealer.py`. -/
def PORT : Nat := 8080

/-- The request timeout in seconds passed to `asyncio.wait_for` in
`_identify_sources` (`timeout=1`). -/
def IDENTIFY_TIMEOUT : Nat := 1

/-- The URL fetched for an address, `f"http://{ip_address}:{PORT}"`. -/
def identifyUrl (ip : String) : String := "http://" ++ ip ++ ":" ++ toString PORT

/-- Result of the identify loop body: the URLs requested, the events emitted,
and whether the loop ran to completion (`false` when an uncaught exception
aborted it). -/
structure IdentifyResult where
  calls : List String
  events : List Event
  ranToEnd : Bool
deriving DecidableEq, Repr

/-- Embedding of the `for ip_address in self._ip_addresses` loop of
`_identify_sources` (`src/revealer.py`, lines 110-120).  A timeout is caught
and the address skipped; an `ok` body is classified by `analyze_page` and, if
classified, emitted as `deviceIdentified`; any other fetch error is not
caught, so the loop aborts and nothing after it runs. -/
def identifyLoop (fetch : String → FetchResult) : List String → IdentifyResult
  | [] => ⟨[], [], true⟩
  | ip :: rest =>
    let url := identifyUrl ip
    match fetch url with
    | .fetchErr => ⟨[url], [], false⟩
    | .timeout =>
      let r := identifyLoop fetch rest
      ⟨url :: r.calls, r.events, r.ranToEnd⟩
    | .ok html =>
      let r := identifyLoop fetch rest
      ⟨url :: r.calls,
       (match analyze_page html with
        | some d => [Event.deviceIdentified ip d]
        | none => []) ++ r.events,
       r.ranToEnd⟩

/-- Embedding of `_identify_sources` (`src/revealer.py`, lines 103-122)
including its `check_stop` decorator: if the stop flag reads true at entry,
emit `stopped` and return; otherwise run the loop and, if it ran to the end,
emit `completed` (the `singleShot` that schedules the next cycle is outside
the single-cycle model). -/
def identifySources (n : Int) (stopFlag : Bool) (fetch : String → FetchResult)
    (ips : List String) : IdentifyResult :=
  if stopFlag then ⟨[], [Event.stopped n], false⟩
  else
    let r := identifyLoop fetch ips
    ⟨r.calls, r.events ++ (if r.ranToEnd then [Event.completed n] else []), r.ranToEnd⟩

/-- A UDP packet sent by the prober: payload, destination host, destination
port. -/
structure Packet where
  payload : String
  dest : String
  destPort : Nat
deriving DecidableEq, Repr

/-- The payload stem of the discovery request, followed in the source by the
probe socket's own bound port. -/
def REQUEST_TAG : String := "DISCOVER_CUBIELORD_REQUEST "

/-- The literal the source compares reply payloads against with `startswith`
(`"DISCOVER_CUBIELORD_RESPONSE "`, trailing space included). -/
def RESPONSE_TAG : String := "DISCOVER_CUBIELORD_RESPONSE "

/-- The broadcast destination port of the probe, `8008` in `_reveal`. -/
def BROADCAST_PORT : Nat := 8008

/-- One enumerated interface address: whether its family is `AF_INET`, the
bound address text, the ephemeral port the probe socket gets on bind, whether
the socket block raises (bind failure), and the reply datagrams
`(payload, senderAddress)` that arrive within the wait window. -/
structure IfaceAddr where
  family_inet : Bool
  address : String
  port : Nat
  bindFails : Bool
  datagrams : List (String × String)
deriving DecidableEq, Repr

/-- One enumerated interface: its name and its addresses. -/
structure Iface where
  name : String
  addrs : List IfaceAddr
deriving DecidableEq, Repr

/-- Result of the wait loop on one socket: events emitted, sender addresses
appended to `_ip_addresses`, the checkpoint counter after the loop, and
whether the stop flag was read true (which makes `_reveal` return). -/
structure WaitResult where
  events : List Event
  ips : List String
  checks : Nat
  stopHit : Bool
deriving Repr

/-- Embedding of the `while True` wait loop of `_reveal` (`src/revealer.py`,
lines 154-167).  Each iteration first reads the stop flag (one checkpoint);
then either a datagram is received — and if its payload starts with
`RESPONSE_TAG` the engine emits `deviceFound` and appends the sender — or the
window has expired and the loop breaks.  The model consumes one checkpoint per
datagram plus one final checkpoint on the iteration that observes expiry. -/
def waitLoop (n : Int) (sched : Nat → Bool) : Nat → List (String × String) → WaitResult
  | k, [] =>
    if sched k then ⟨[], [], k + 1, true⟩ else ⟨[], [], k + 1, false⟩
  | k, d :: rest =>
    if sched k then ⟨[], [], k + 1, true⟩
    else
      let r := waitLoop n sched (k + 1) rest
      if listIsPre RESPONSE_TAG.data d.1.data then
        ⟨Event.deviceFound n d.2 :: r.events, d.2 :: r.ips, r.checks, r.stopHit⟩
      else r

/-- Result of a probe sweep: packets sent, events emitted, addresses
collected, checkpoint counter, and whether a stop observation made `_reveal`
return early (silently). -/
structure ProbeResult where
  sent : List Packet
  events : List Event
  ips : List String
  checks : Nat
  stopHit : Bool
deriving Repr

/-- Embedding of the socket block for one bound address (`src/revealer.py`,
lines 146-169): on bind failure the exception is caught, logged and the
address skipped; otherwise one broadcast request packet is sent to
`("255.255.255.255", 8008)` with the socket's own port in the payload, and the
wait loop collects replies. -/
def probeAddr (n : Int) (sched : Nat → Bool) (k : Nat) (a : IfaceAddr) : ProbeResult :=
  if a.bindFails then ⟨[], [], [], k, false⟩
  else
    let r := waitLoop n sched k a.datagrams
    ⟨[⟨REQUEST_TAG ++ toString a.port, "255.255.255.255", BROADCAST_PORT⟩],
     r.events, r.ips, r.checks, r.stopHit⟩

/-- Embedding of the `for address in iface` loop of `_reveal`: before each
address the stop flag is read (line 142) and a true reading makes `_reveal`
return with no emission; non-`AF_INET` addresses are skipped after that
check. -/
def probeAddrs (n : Int) (sched : Nat → Bool) : Nat → List IfaceAddr → ProbeResult
  | k, [] => ⟨[], [], [], k, false⟩
  | k, a :: rest =>
    if sched k then ⟨[], [], [], k + 1, true⟩
    else if !a.family_inet then probeAddrs n sched (k + 1) rest
    else
      let r1 := probeAddr n sched (k + 1) a
      if r1.stopHit then r1
      else
        let r2 := probeAddrs n sched r1.checks rest
        ⟨r1.sent ++ r2.sent, r1.events ++ r2.events, r1.ips ++ r2.ips,
         r2.checks, r2.stopHit⟩

/-- Embedding of the `for iface_name, iface in ifaces.items()` loop of
`_reveal`: before each interface the stop flag is read (line 138) and a true
reading makes `_reveal` return with no emission. -/
def probeIfaces (n : Int) (sched : Nat → Bool) : Nat → List Iface → ProbeResult
  | k, [] => ⟨[], [], [], k, false⟩
  | k, f :: rest =>
    if sched k then ⟨[], [], [], k + 1, true⟩
    else
      let r1 := probeAddrs n sched (k + 1) f.addrs
      if r1.stopHit then r1
      else
        let r2 := probeIfaces n sched r1.checks rest
        ⟨r1.sent ++ r2.sent, r1.events ++ r2.events, r1.ips ++ r2.ips,
         r2.checks, r2.stopHit⟩

/-- Result of `_reveal`: packets, events, collected addresses, checkpoint
counter, and whether the method reached its final line that schedules
`_identify_sources`. -/
structure RevealResult where
  sent : List Packet
  events : List Event
  ips : List String
  checks : Nat
  proceed : Bool
deriving Repr

/-- Embedding of `_reveal` (`src/revealer.py`, lines 124-170) including its
`check_stop` decorator: a true stop flag at entry emits `stopped` and returns;
a stop observed at any inner checkpoint returns silently; otherwise the probe
sweep runs and `_identify_sources` is scheduled. -/
def reveal (n : Int) (sched : Nat → Bool) (ifaces : List Iface) : RevealResult :=
  if sched 0 then ⟨[], [Event.stopped n], [], 1, false⟩
  else
    let r := probeIfaces n sched 1 ifaces
    ⟨r.sent, r.events, r.ips, r.checks, !r.stopHit⟩

/-- Result of one full cycle: packets sent and events emitted. -/
structure CycleResult where
  sent : List Packet
  events : List Event
deriving Repr

/-- Embedding of one cycle of the engine, from `_start`
(`src/revealer.py`, lines 172-176) through `_reveal` and
`_identify_sources`: `_start` emits `started` and resets the address list,
then `_reveal` runs; if it reached its end, `_identify_sources` runs with the
stop flag as read at its own decorated entry (one more checkpoint). -/
def runCycle (n : Int) (sched : Nat → Bool) (ifaces : List Iface)
    (fetch : String → FetchResult) : CycleResult :=
  let r := reveal n sched ifaces
  if r.proceed then
    let i := identifySources n (sched r.checks) fetch r.ips
    ⟨r.sent, Event.started n :: (r.events ++ i.events)⟩
  else
    ⟨r.sent, Event.started n :: r.events⟩

/-- The events of one full cycle. -/
def runCycleEvents (n : Int) (sched : Nat → Bool) (ifaces : List Iface)
    (fetch : String → FetchResult) : List Event :=
  (runCycle n sched ifaces fetch).events

/-- The schedule on which the stop flag is never set. -/
def noStop : Nat → Bool := fun _ => false

/-- The mutable state of class `Revealer` relevant to the command methods
(`src/revealer.py`, lines 92-101): the collected address list, the revealer
number and the stop flag (the Qt timer is not modelled). -/
structure Revealer where
  ip_addresses : List String
  number : Int
  stop_search : Bool
deriving DecidableEq, Repr

/-- Embedding of `Revealer.stop` (`src/revealer.py`, lines 189-195): it sets
`stop_search = True` and logs; it emits no signal.  The returned list is the
events it emits. -/
def Revealer.stop (r : Revealer) : Revealer × List Event :=
  ({ r with stop_search := true }, [])

/-- Lexicographic order on character lists used to model the ascending text
sort of `QListWidget.sortItems`. -/
def lexLe : List Char → List Char → Bool
  | [], _ => true
  | _ :: _, [] => false
  | a :: as, b :: bs => if a < b then true else if b < a then false else lexLe as bs

/-- Insertion into a sorted item list. -/
def insertSorted (s : String) : List String → List String
  | [] => [s]
  | t :: rest => if lexLe s.data t.data then s :: t :: rest else t :: insertSorted s rest

/-- Full ascending sort of the item texts, `sortItems` on the list widget. -/
def sortTexts : List String → List String
  | [] => []
  | t :: rest => insertSorted t (sortTexts rest)

/-- The state of `MainWindow` relevant to reconciliation
(`src/main_window.py`): the active revealer number, the address arrays
`_new_ip_addresses` and `_old_ip_addresses`, and the texts of the items of
`list_widget_available_devices` in row order (fonts, colors and buttons are
not modelled). -/
structure MainWindow where
  revealer_number : Int
  new_ips : List String
  old_ips : List String
  items : List String
deriving DecidableEq, Repr

/-- Whether item text `t` is picked up for address `a` by the pair of
`findItems` calls used in `handle_completion` and `identify_device`: exact
match on the bare address, or prefix match on the address followed by an
opening classification bracket. -/
def matchesAddress (a t : String) : Bool :=
  t == a || listIsPre (a ++ " (").data t.data

/-- Embedding of slot `add_device` (`src/main_window.py`, lines 116-127) with
its `check_correct_revealer` guard: data from a revealer number other than the
active one is dropped; otherwise the address is appended to
`_new_ip_addresses` and, if absent from `_old_ip_addresses`, added to the list
widget (which re-sorts). -/
def add_device (w : MainWindow) (n : Int) (ip : String) : MainWindow :=
  if w.revealer_number ≠ n then w
  else
    let w1 := { w with new_ips := w.new_ips ++ [ip] }
    if w1.old_ips.contains ip then w1
    else { w1 with items := sortTexts (w1.items ++ [ip]) }

/-- Embedding of `np.setdiff1d(old, new)` as used in `handle_completion`:
the sorted, duplicate-free values of `old` that are not in `new`. -/
def setdiff1d (old new : List String) : List String :=
  sortTexts (old.filter (fun a => !(new.contains a))).dedup

/-- Embedding of slot `handle_completion` (`src/main_window.py`,
lines 141-155) with its guard: for every removed address, every item whose
text is the bare address or starts with the address and an opening bracket is
taken out of the list widget. -/
def handle_completion (w : MainWindow) (n : Int) : MainWindow :=
  if w.revealer_number ≠ n then w
  else
    let removed := setdiff1d w.old_ips w.new_ips
    { w with
      items := removed.foldl
        (fun its a => its.filter (fun t => !(matchesAddress a t))) w.items }

/-- Embedding of slot `handle_start` (`src/main_window.py`, lines 157-168)
with its guard: the previous-cycle array becomes the last cycle's array and
the current array is reset (the button re-enabling is not modelled). -/
def handle_start (w : MainWindow) (n : Int) : MainWindow :=
  if w.revealer_number ≠ n then w
  else { w with old_ips := w.new_ips, new_ips := [] }

/-- Embedding of slot `handle_stop` (`src/main_window.py`, lines 170-179):
besides its guard it only re-enables the search button, which is not part of
the modelled state. -/
def handle_stop (w : MainWindow) (_n : Int) : MainWindow := w

/-- Embedding of slot `identify_device` (`src/main_window.py`,
lines 181-197).  It carries no `check_correct_revealer` guard (the signal has
no number argument): every item matching the address whose text is not
already `"ip (device)"` is replaced, at its row, by `"ip (device)"`. -/
def identify_device (w : MainWindow) (ip device : String) : MainWindow :=
  let target := ip ++ " (" ++ device ++ ")"
  { w with
    items := w.items.map (fun t =>
      if matchesAddress ip t && t != target then target else t) }

/-- Delivery of one engine event to the main window, following the
signal-to-slot connections made in `MainWindow.__init__`
(`src/main_window.py`, lines 61-65). -/
def dispatch (w : MainWindow) : Event → MainWindow
  | .started n => handle_start w n
  | .deviceFound n ip => add_device w n ip
  | .deviceIdentified ip device => identify_device w ip device
  | .completed n => handle_completion w n
  | .stopped n => handle_stop w n

/-- Environment with one interface whose probe window receives the same reply
datagram twice from the same sender. -/
def dupEnv : List Iface :=
  [⟨"eth0", [⟨true, "10.0.0.5", 54321, false,
    [("DISCOVER_CUBIELORD_RESPONSE x", "192.0.2.10"),
     ("DISCOVER_CUBIELORD_RESPONSE x", "192.0.2.10")]⟩]⟩]

/-- Environment whose single reply datagram is exactly the bare word
`DISCOVER_CUBIELORD_RESPONSE`, with no trailing space. -/
def bareEnv : List Iface :=
  [⟨"eth0", [⟨true, "10.0.0.5", 54321, false,
    [("DISCOVER_CUBIELORD_RESPONSE", "192.0.2.10")]⟩]⟩]

/-- Environment with one replying device whose page carries the АСА
signature. -/
def asaEnv : List Iface :=
  [⟨"eth0", [⟨true, "10.0.0.5", 54321, false,
    [("DISCOVER_CUBIELORD_RESPONSE x", "192.0.2.10")]⟩]⟩]

/-- Fetch environment in which the first address's fetch raises a non-timeout
error and every other address serves an EyePoint S2 page. -/
def errFetch : String → FetchResult :=
  fun url => if url == identifyUrl "10.0.0.1" then .fetchErr else .ok "EyePoint S2"

/-- A main window currently tracking run number 2, showing one address. -/
def staleWindow : MainWindow := ⟨2, [], [], ["192.0.2.10"]⟩

/-- Event sequence of the two-cycle reconciliation scenario: cycle one finds
addresses .1 and .2 and identifies .1, cycle two finds .2 and .3. -/
def twoCycleTrace : List Event :=
  [.started 1,
   .deviceFound 1 "192.0.2.1", .deviceFound 1 "192.0.2.2",
   .deviceIdentified "192.0.2.1" "АСА", .completed 1,
   .started 1,
   .deviceFound 1 "192.0.2.2", .deviceFound 1 "192.0.2.3",
   .completed 1]

lemma waitLoop_noStop (n : Int) (k : Nat) (dgs : List (String × String)) :
    waitLoop n noStop k dgs =
      ⟨(dgs.filter fun d => listIsPre RESPONSE_TAG.data d.1.data).map
          (fun d => Event.deviceFound n d.2),
        (dgs.filter fun d => listIsPre RESPONSE_TAG.data d.1.data).map Prod.snd,
        k + (dgs.length + 1), false⟩ := by
  induction dgs generalizing k with
  | nil => simp [waitLoop, noStop]
  | cons d rest ih =>
    rw [waitLoop]
    simp only [noStop, if_false, ih]
    by_cases h : listIsPre RESPONSE_TAG.data d.1.data
    · simp [h, List.filter_cons, WaitResult.mk.injEq]
      omega
    · simp [h, List.filter_cons, WaitResult.mk.injEq]
      omega

lemma reveal_single (n : Int) (name addr : String) (port : Nat)
    (dgs : List (String × String)) :
    reveal n noStop [⟨name, [⟨true, addr, port, false, dgs⟩]⟩] =
      ⟨[⟨REQUEST_TAG ++ toString port, "255.255.255.255", BROADCAST_PORT⟩],
        (dgs.filter fun d => listIsPre RESPONSE_TAG.data d.1.data).map
          (fun d => Event.deviceFound n d.2),
        (dgs.filter fun d => listIsPre RESPONSE_TAG.data d.1.data).map Prod.snd,
        3 + (dgs.length + 1), true⟩ := by
  unfold reveal probeIfaces probeAddrs probeAddr
  simp only [noStop, if_false, Bool.not_true, Bool.not_false]
  rw [waitLoop_noStop]
  simp [probeIfaces, probeAddrs]

lemma waitLoop_events_found (n : Int) (sched : Nat → Bool) (k : Nat)
    (dgs : List (String × String)) :
    ∀ e ∈ (waitLoop n sched k dgs).events, ∃ a, e = Event.deviceFound n a := by
  induction dgs generalizing k with
  | nil =>
    intro e he
    rw [waitLoop] at he
    cases h : sched k <;> simp [h] at he
  | cons d rest ih =>
    intro e he
    rw [waitLoop] at he
    cases h : sched k
    · cases hp : listIsPre RESPONSE_TAG.data d.1.data
      · simp [h, hp] at he
        exact ih (k + 1) e he
      · simp [h, hp] at he
        rcases he with h0 | h0
        · exact ⟨d.2, h0⟩
        · exact ih (k + 1) e h0
    · simp [h] at he

lemma probeAddr_events_found (n : Int) (sched : Nat → Bool) (k : Nat)
    (a : IfaceAddr) :
    ∀ e ∈ (probeAddr n sched k a).events, ∃ x, e = Event.deviceFound n x := by
  intro e he
  unfold probeAddr at he
  cases hb : a.bindFails
  · simp only [hb, if_false] at he
    exact waitLoop_events_found n sched k a.datagrams e he
  · simp [hb] at he

lemma probeAddrs_events_found (n : Int) (sched : Nat → Bool) :
    ∀ (l : List IfaceAddr) (k : Nat),
      ∀ e ∈ (probeAddrs n sched k l).events, ∃ x, e = Event.deviceFound n x := by
  intro l
  induction l with
  | nil => intro k e he; simp [probeAddrs] at he
  | cons a rest ih =>
    intro k e he
    rw [probeAddrs] at he
    cases h : sched k
    · cases hf : a.family_inet
      · simp [h, hf] at he
        exact ih _ e he
      · cases hs : (probeAddr n sched (k + 1) a).stopHit
        · simp [h, hf, hs, List.append_eq] at he
          rcases he with h0 | h0
          · exact probeAddr_events_found n sched (k + 1) a e h0
          · exact ih _ e h0
        · simp [h, hf, hs] at he
          exact probeAddr_events_found n sched (k + 1) a e he
    · simp [h] at he

lemma probeIfaces_events_found (n : Int) (sched : Nat → Bool) :
    ∀ (l : List Iface) (k : Nat),
      ∀ e ∈ (probeIfaces n sched k l).events, ∃ x, e = Event.deviceFound n x := by
  intro l
  induction l with
  | nil => intro k e he; simp [probeIfaces] at he
  | cons f rest ih =>
    intro k e he
    rw [probeIfaces] at he
    cases h : sched k
    · cases hs : (probeAddrs n sched (k + 1) f.addrs).stopHit
      · simp [h, hs, List.append_eq] at he
        rcases he with h0 | h0
        · exact probeAddrs_events_found n sched f.addrs (k + 1) e h0
        · exact ih _ e h0
      · simp [h, hs] at he
        exact probeAddrs_events_found n sched f.addrs (k + 1) e he
    · simp [h] at he

lemma identifyLoop_events_ident (fetch : String → FetchResult) :
    ∀ ips : List String,
      ∀ e ∈ (identifyLoop fetch ips).events, ∃ a d, e = Event.deviceIdentified a d := by
  intro ips
  induction ips with
  | nil => intro e he; simp [identifyLoop] at he
  | cons ip rest ih =>
    intro e he
    rw [identifyLoop] at he
    cases hf : fetch (identifyUrl ip) with
    | fetchErr => simp [hf] at he
    | timeout =>
      simp only [hf] at he
      exact ih e he
    | ok html =>
      simp only [hf, List.mem_append] at he
      rcases he with he | he
      · cases ha : analyze_page html with
        | none => simp [ha] at he
        | some d =>
          simp only [ha, List.mem_singleton] at he
          exact ⟨ip, d, he⟩
      · exact ih e he

lemma identifyLoop_noErr (fetch : String → FetchResult) :
    ∀ ips : List String, (∀ ip ∈ ips, fetch (identifyUrl ip) ≠ .fetchErr) →
      (identifyLoop fetch ips).calls = ips.map identifyUrl ∧
      (identifyLoop fetch ips).ranToEnd = true ∧
      (∀ e ∈ (identifyLoop fetch ips).events, ∃ ip, ip ∈ ips ∧
        ∃ html, fetch (identifyUrl ip) = .ok html ∧
          ∃ d, analyze_page html = some d ∧ e = Event.deviceIdentified ip d) := by
  intro ips
  induction ips with
  | nil => intro _; refine ⟨rfl, rfl, ?_⟩; intro e he; simp [identifyLoop] at he
  | cons ip rest ih =>
    intro hne
    have hip : fetch (identifyUrl ip) ≠ .fetchErr := hne ip (List.mem_cons_self ip rest)
    have hrest := ih (fun b hb => hne b (List.mem_cons_of_mem ip hb))
    rw [identifyLoop]
    cases hf : fetch (identifyUrl ip) with
    | fetchErr => exact absurd hf hip
    | timeout =>
      refine ⟨by simp [hrest.1], by simp [hrest.2.1], ?_⟩
      intro e he
      simp only at he
      obtain ⟨b, hb, rest'⟩ := hrest.2.2 e he
      exact ⟨b, List.mem_cons_of_mem ip hb, rest'⟩
    | ok html =>
      refine ⟨by simp [hrest.1], by simp [hrest.2.1], ?_⟩
      intro e he
      simp only [List.mem_append] at he
      rcases he with he | he
      · cases ha : analyze_page html with
        | none => simp [ha] at he
        | some d =>
          simp only [ha, List.mem_singleton] at he
          exact ⟨ip, List.mem_cons_self ip rest, html, hf, d, ha, he⟩
      · obtain ⟨b, hb, rest'⟩ := hrest.2.2 e he
        exact ⟨b, List.mem_cons_of_mem ip hb, rest'⟩

lemma identifyLoop_err_split (fetch : String → FetchResult) :
    ∀ (pre : List String) (a : String) (post : List String),
      (∀ b ∈ pre, fetch (identifyUrl b) ≠ .fetchErr) →
      fetch (identifyUrl a) = .fetchErr →
      identifyLoop fetch (pre ++ a :: post) =
        ⟨pre.map identifyUrl ++ [identifyUrl a],
          (identifyLoop fetch pre).events, false⟩ := by
  intro pre
  induction pre with
  | nil =>
    intro a post _ ha
    simp only [List.nil_append]
    simp [identifyLoop, ha]
  | cons b pre' ih =>
    intro a post hpre ha
    have hb : fetch (identifyUrl b) ≠ .fetchErr := hpre b (List.mem_cons_self b pre')
    have hrec := ih a post (fun c hc => hpre c (List.mem_cons_of_mem b hc)) ha
    simp only [List.cons_append]
    rw [identifyLoop, identifyLoop]
    cases hf : fetch (identifyUrl b) with
    | fetchErr => exact absurd hf hb
    | timeout => simp [hrec]
    | ok html => simp [hrec]

lemma identifySources_run (n : Int) (fetch : String → FetchResult)
    (ips : List String) :
    identifySources n false fetch ips =
      ⟨(identifyLoop fetch ips).calls,
        (identifyLoop fetch ips).events ++
          (if (identifyLoop fetch ips).ranToEnd then [Event.completed n] else []),
        (identifyLoop fetch ips).ranToEnd⟩ := rfl

lemma mem_insertSorted (a s : String) (l : List String) :
    a ∈ insertSorted s l ↔ a = s ∨ a ∈ l := by
  induction l with
  | nil => simp [insertSorted]
  | cons t rest ih =>
    rw [insertSorted]
    cases h : lexLe s.data t.data
    · simp [h, ih]
      tauto
    · simp [h]

lemma mem_sortTexts (a : String) (l : List String) : a ∈ sortTexts l ↔ a ∈ l := by
  induction l with
  | nil => simp [sortTexts]
  | cons t rest ih =>
    rw [sortTexts]
    rw [mem_insertSorted]
    simp [ih]

lemma runCycle_entry_stop (n : Int) (sched : Nat → Bool) (ifaces : List Iface)
    (fetch : String → FetchResult) (h : sched 0 = true) :
    runCycleEvents n sched ifaces fetch = [Event.started n, Event.stopped n] := by
  unfold runCycleEvents runCycle reveal
  rw [h]
  simp

lemma runCycle_silent_abort (n : Int) (sched : Nat → Bool) (ifaces : List Iface)
    (fetch : String → FetchResult) (h0 : sched 0 = false)
    (hs : (probeIfaces n sched 1 ifaces).stopHit = true) :
    runCycleEvents n sched ifaces fetch =
      Event.started n :: (probeIfaces n sched 1 ifaces).events := by
  unfold runCycleEvents runCycle reveal
  rw [h0]
  simp [hs]

lemma runCycle_proceed (n : Int) (sched : Nat → Bool) (ifaces : List Iface)
    (fetch : String → FetchResult) (h0 : sched 0 = false)
    (hs : (probeIfaces n sched 1 ifaces).stopHit = false) :
    runCycleEvents n sched ifaces fetch =
      Event.started n :: ((probeIfaces n sched 1 ifaces).events ++
        (identifySources n (sched (probeIfaces n sched 1 ifaces).checks) fetch
          (probeIfaces n sched 1 ifaces).ips).events) := by
  unfold runCycleEvents runCycle reveal
  rw [h0]
  simp [hs]

/-- C1, counterexample: a probe window that receives two identical reply
datagrams from sender 192.0.2.10 makes the engine emit
`deviceFound(1, "192.0.2.10")` twice within the one cycle, and the cycle's
address list holds the address twice — the claimed per-cycle suppression of
duplicates does not exist in `_reveal`. -/
theorem dup_datagrams_dup_emissions_cex :
    (runCycleEvents 1 noStop dupEnv (fun _ => .timeout)).count
        (Event.deviceFound 1 "192.0.2.10") = 2 ∧
    (reveal 1 noStop dupEnv).ips = ["192.0.2.10", "192.0.2.10"] := by
  decide

/-- C1, amended: within one probe window the engine emits one `deviceFound`
per reply datagram whose payload starts with the response literal, and appends
the sender once per such datagram, with no suppression of duplicates: a sender
that replies twice is emitted and recorded twice. -/
theorem deviceFound_per_matching_datagram (n : Int) (k : Nat)
    (dgs : List (String × String)) :
    (waitLoop n noStop k dgs).events =
      (dgs.filter fun d => listIsPre RESPONSE_TAG.data d.1.data).map
        (fun d => Event.deviceFound n d.2) ∧
    (waitLoop n noStop k dgs).ips =
      (dgs.filter fun d => listIsPre RESPONSE_TAG.data d.1.data).map Prod.snd := by
  rw [waitLoop_noStop]
  exact ⟨rfl, rfl⟩

/-- C7, counterexample: a responder that replies with the bare payload
`DISCOVER_CUBIELORD_RESPONSE` (no trailing space) from 192.0.2.10 is NOT
reported: the source compares against `"DISCOVER_CUBIELORD_RESPONSE "` with a
trailing space, so the cycle emits no `deviceFound` at all for that reply. -/
theorem bare_response_ignored_cex :
    runCycleEvents 1 noStop bareEnv (fun _ => .timeout) =
      [Event.started 1, Event.completed 1] ∧
    Event.deviceFound 1 "192.0.2.10" ∉
      runCycleEvents 1 noStop bareEnv (fun _ => .timeout) := by
  decide

/-- C7, amended: for each bound IPv4 address the probe sends exactly one UDP
datagram with payload `"DISCOVER_CUBIELORD_REQUEST <port>"` — `<port>` being
the probe socket's own bound ephemeral port — to broadcast port 8008, and a
reply datagram produces `deviceFound(cycleId, sender)` exactly when its
payload starts with `"DISCOVER_CUBIELORD_RESPONSE "` including the trailing
space; a responder replying `"DISCOVER_CUBIELORD_RESPONSE 1"` from 192.0.2.10
yields `deviceFound(cycleId, "192.0.2.10")`. -/
theorem probe_payload_and_matching (n : Int) (name addr : String) (port : Nat)
    (dgs : List (String × String)) :
    (runCycle n noStop [⟨name, [⟨true, addr, port, false, dgs⟩]⟩]
        (fun _ => .timeout)).sent =
      [⟨REQUEST_TAG ++ toString port, "255.255.255.255", BROADCAST_PORT⟩] ∧
    REQUEST_TAG = "DISCOVER_CUBIELORD_REQUEST " ∧
    (reveal n noStop [⟨name, [⟨true, addr, port, false, dgs⟩]⟩]).events =
      (dgs.filter fun d => listIsPre RESPONSE_TAG.data d.1.data).map
        (fun d => Event.deviceFound n d.2) ∧
    RESPONSE_TAG = "DISCOVER_CUBIELORD_RESPONSE " ∧
    Event.deviceFound 1 "192.0.2.10" ∈
      runCycleEvents 1 noStop
        [⟨"eth0", [⟨true, "10.0.0.5", 54321, false,
          [("DISCOVER_CUBIELORD_RESPONSE 1", "192.0.2.10")]⟩]⟩]
        (fun _ => .timeout) := by
  refine ⟨?_, rfl, ?_, rfl, by decide⟩
  · unfold runCycle
    rw [reveal_single]
    simp
  · rw [reveal_single]

/-- C2, counterexample: with two discovered addresses where the first fetch
raises a non-timeout error and the second would serve an EyePoint S2 page,
the identify phase emits nothing at all: the error is not absorbed, the
remaining address is never identified and the cycle does not reach
`completed`. -/
theorem fetch_error_aborts_cycle_cex :
    (identifySources 1 false errFetch ["10.0.0.1", "10.0.0.2"]).events = [] ∧
    Event.completed 1 ∉
      (identifySources 1 false errFetch ["10.0.0.1", "10.0.0.2"]).events ∧
    Event.deviceIdentified "10.0.0.2" "EyePoint S2" ∉
      (identifySources 1 false errFetch ["10.0.0.1", "10.0.0.2"]).events := by
  decide

/-- C2, amended: only `asyncio.TimeoutError` is absorbed per address.  Any
other fetch error propagates out of the identify loop: the addresses before
the failing one are processed normally, the failing address and every
remaining address are skipped, and the cycle never reaches `completed`. -/
theorem fetch_error_isolation_amended (n : Int) (fetch : String → FetchResult)
    (pre : List String) (a : String) (post : List String)
    (hpre : ∀ b ∈ pre, fetch (identifyUrl b) ≠ .fetchErr)
    (ha : fetch (identifyUrl a) = .fetchErr) :
    (identifySources n false fetch (pre ++ a :: post)).events =
      (identifyLoop fetch pre).events ∧
    (identifySources n false fetch (pre ++ a :: post)).calls =
      pre.map identifyUrl ++ [identifyUrl a] ∧
    Event.completed n ∉
      (identifySources n false fetch (pre ++ a :: post)).events := by
  have hsplit := identifyLoop_err_split fetch pre a post hpre ha
  unfold identifySources
  rw [hsplit]
  refine ⟨by simp, by simp, ?_⟩
  intro hmem
  simp at hmem
  obtain ⟨x, d, hxd⟩ := identifyLoop_events_ident fetch pre _ hmem
  exact Event.noConfusion hxd

/-- Witness for the amended C2 theorem at a concrete input. -/
theorem fetch_error_isolation_amended_witness :
    (identifySources 1 false errFetch (([] : List String) ++ "10.0.0.1" :: ["10.0.0.2"])).events =
      (identifyLoop errFetch []).events ∧
    (identifySources 1 false errFetch (([] : List String) ++ "10.0.0.1" :: ["10.0.0.2"])).calls =
      ([] : List String).map identifyUrl ++ [identifyUrl "10.0.0.1"] ∧
    Event.completed 1 ∉
      (identifySources 1 false errFetch (([] : List String) ++ "10.0.0.1" :: ["10.0.0.2"])).events :=
  fetch_error_isolation_amended 1 errFetch [] "10.0.0.1" ["10.0.0.2"]
    (by simp) (by decide)

/-- C6: the identification fetch timeout constant is 1 second; in a cycle
whose fetches all either succeed or time out, every address is fetched
exactly once (no retry), a timed-out address produces no `deviceIdentified`
emission, and the cycle still emits `completed`. -/
theorem timeout_skipped_cycle_completes (n : Int) (fetch : String → FetchResult)
    (ips : List String) (hne : ∀ ip ∈ ips, fetch (identifyUrl ip) ≠ .fetchErr) :
    IDENTIFY_TIMEOUT = 1 ∧
    (identifySources n false fetch ips).calls = ips.map identifyUrl ∧
    Event.completed n ∈ (identifySources n false fetch ips).events ∧
    (∀ ip d, fetch (identifyUrl ip) = .timeout →
      Event.deviceIdentified ip d ∉ (identifySources n false fetch ips).events) := by
  obtain ⟨hcalls, hend, hev⟩ := identifyLoop_noErr fetch ips hne
  rw [identifySources_run]
  refine ⟨rfl, hcalls, ?_, ?_⟩
  · simp [hend]
  · intro ip d htime hmem
    rw [List.mem_append] at hmem
    rcases hmem with hmem | hmem
    · obtain ⟨ip', hip', html, hok, d', _, heq⟩ := hev _ hmem
      cases heq
      rw [hok] at htime
      exact FetchResult.noConfusion htime
    · rw [hend] at hmem
      simp at hmem

/-- Witness for the C6 theorem at a concrete input whose single fetch times
out. -/
theorem timeout_skipped_cycle_completes_witness :
    IDENTIFY_TIMEOUT = 1 ∧
    (identifySources 1 false (fun _ => .timeout) ["10.0.0.7"]).calls =
      ["10.0.0.7"].map identifyUrl ∧
    Event.completed 1 ∈ (identifySources 1 false (fun _ => .timeout) ["10.0.0.7"]).events ∧
    (∀ ip d, (fun _ => FetchResult.timeout) (identifyUrl ip) = FetchResult.timeout →
      Event.deviceIdentified ip d ∉
        (identifySources 1 false (fun _ => .timeout) ["10.0.0.7"]).events) :=
  timeout_skipped_cycle_completes 1 (fun _ => .timeout) ["10.0.0.7"] (by simp)

/-- C3, counterexample: with the stop flag observed false at the `_reveal`
entry but true at the first inner checkpoint (before the first interface), the
engine abandons the cycle without emitting `stopped(cycleId)` — or anything
else: the trace is just `started`.  Inner checkpoints return silently; only
the two decorated phase entries emit `stopped`. -/
theorem inner_checkpoint_silent_cex :
    runCycleEvents 1 (fun k => decide (1 ≤ k)) asaEnv (fun _ => .timeout) =
      [Event.started 1] ∧
    Event.stopped 1 ∉
      runCycleEvents 1 (fun k => decide (1 ≤ k)) asaEnv (fun _ => .timeout) := by
  decide

/-- C3, amended: `stopped(cycleId)` is emitted, instead of `completed`, only
when the stop flag is observed at a decorated phase entry — the entry of the
scan phase (checkpoint 0) or the entry of the identify phase.  When the flag
is observed at an inner checkpoint (before an interface, before an address,
or inside a wait-loop iteration) the engine abandons the cycle silently,
emitting neither `completed` nor `stopped`. -/
theorem stopped_only_at_phase_entries (n : Int) (sched : Nat → Bool)
    (ifaces : List Iface) (fetch : String → FetchResult) :
    (sched 0 = true →
      runCycleEvents n sched ifaces fetch = [Event.started n, Event.stopped n]) ∧
    (sched 0 = false → (probeIfaces n sched 1 ifaces).stopHit = true →
      runCycleEvents n sched ifaces fetch =
        Event.started n :: (probeIfaces n sched 1 ifaces).events ∧
      Event.stopped n ∉ runCycleEvents n sched ifaces fetch) ∧
    (sched 0 = false → (probeIfaces n sched 1 ifaces).stopHit = false →
      sched (probeIfaces n sched 1 ifaces).checks = true →
      runCycleEvents n sched ifaces fetch =
        Event.started n :: ((probeIfaces n sched 1 ifaces).events ++
          [Event.stopped n])) := by
  refine ⟨fun h0 => runCycle_entry_stop n sched ifaces fetch h0, ?_, ?_⟩
  · intro h0 hs
    have htr := runCycle_silent_abort n sched ifaces fetch h0 hs
    refine ⟨htr, ?_⟩
    rw [htr]
    intro hmem
    rcases List.mem_cons.mp hmem with h1 | h1
    · exact Event.noConfusion h1
    · obtain ⟨a, ha⟩ := probeIfaces_events_found n sched ifaces 1 _ h1
      exact Event.noConfusion ha
  · intro h0 hs hk
    rw [runCycle_proceed n sched ifaces fetch h0 hs, hk]
    rfl

/-- Witness for the amended C3 theorem: with the flag already set at the scan
phase entry, the trace is exactly `started` then `stopped`. -/
theorem stopped_only_at_phase_entries_witness :
    runCycleEvents 1 (fun _ => true) [] (fun _ => .timeout) =
      [Event.started 1, Event.stopped 1] :=
  (stopped_only_at_phase_entries 1 (fun _ => true) [] (fun _ => .timeout)).1 rfl

/-- C4, counterexample: the engine's `deviceIdentified` signal carries no
cycle number at all, and the consumer slot that handles it is not wrapped in
the number guard: an identification event emitted by the stale run numbered 1,
delivered while the consumer tracks run 2, is acted on (the shown item is
rewritten), not discarded. -/
theorem stale_identified_acted_on_cex :
    Event.deviceIdentified "192.0.2.10" "АСА" ∈
      runCycleEvents 1 noStop asaEnv (fun _ => .ok "аса") ∧
    Event.cycleNumber (Event.deviceIdentified "192.0.2.10" "АСА") = none ∧
    dispatch staleWindow (Event.deviceIdentified "192.0.2.10" "АСА") ≠
      staleWindow := by
  decide

/-- C4, amended: the four numbered events (`started`, `deviceFound`,
`completed`, `stopped`) carry the revealer number of their run, and the
consumer ignores any of them whose number differs from the currently active
one; `deviceIdentified` carries only the address and kind, and the consumer
applies it unconditionally, whatever run emitted it. -/
theorem numbered_event_filtering (w : MainWindow) (e : Event) (n : Int) :
    (e.cycleNumber = some n → n ≠ w.revealer_number → dispatch w e = w) ∧
    (∀ ip device, dispatch w (.deviceIdentified ip device) =
      identify_device w ip device) := by
  constructor
  · intro hn hne
    have hg : w.revealer_number ≠ n := fun h => hne h.symm
    cases e with
    | started m =>
      simp only [Event.cycleNumber, Option.some.injEq] at hn
      subst hn
      simp [dispatch, handle_start, hg]
    | deviceFound m ip =>
      simp only [Event.cycleNumber, Option.some.injEq] at hn
      subst hn
      simp [dispatch, add_device, hg]
    | deviceIdentified ip device => simp [Event.cycleNumber] at hn
    | completed m =>
      simp only [Event.cycleNumber, Option.some.injEq] at hn
      subst hn
      simp [dispatch, handle_completion, hg]
    | stopped m => rfl
  · intro ip device
    rfl

/-- Witness for the amended C4 theorem: a `started` event numbered 1 delivered
to a window tracking run 2 leaves the window unchanged. -/
theorem numbered_event_filtering_witness :
    dispatch ⟨2, [], [], []⟩ (Event.started 1) = ⟨2, [], [], []⟩ :=
  (numbered_event_filtering ⟨2, [], [], []⟩ (Event.started 1) 1).1 rfl (by decide)

/-- C8: within one cycle the trace has the shape `started` first, then all
`deviceFound` events, then all `deviceIdentified` events, then at most one
terminal `completed` or `stopped` event — so `started` precedes every
`deviceFound`, which precede every `deviceIdentified`, which precede the
cycle's `completed`/`stopped`. -/
theorem cycle_event_order (n : Int) (sched : Nat → Bool) (ifaces : List Iface)
    (fetch : String → FetchResult) :
    ∃ founds idents tail,
      runCycleEvents n sched ifaces fetch =
        Event.started n :: (founds ++ (idents ++ tail)) ∧
      (∀ e ∈ founds, ∃ a, e = Event.deviceFound n a) ∧
      (∀ e ∈ idents, ∃ a d, e = Event.deviceIdentified a d) ∧
      (tail = [] ∨ tail = [Event.completed n] ∨ tail = [Event.stopped n]) := by
  cases h0 : sched 0
  · cases hs : (probeIfaces n sched 1 ifaces).stopHit
    · cases hk : sched (probeIfaces n sched 1 ifaces).checks
      · refine ⟨(probeIfaces n sched 1 ifaces).events,
          (identifyLoop fetch (probeIfaces n sched 1 ifaces).ips).events,
          if (identifyLoop fetch (probeIfaces n sched 1 ifaces).ips).ranToEnd
            then [Event.completed n] else [], ?_, ?_, ?_, ?_⟩
        · rw [runCycle_proceed n sched ifaces fetch h0 hs, hk, identifySources_run]
        · exact fun e he => probeIfaces_events_found n sched ifaces 1 e he
        · exact fun e he => identifyLoop_events_ident fetch _ e he
        · cases h : (identifyLoop fetch (probeIfaces n sched 1 ifaces).ips).ranToEnd <;>
            simp [h]
      · refine ⟨(probeIfaces n sched 1 ifaces).events, [], [Event.stopped n],
          ?_, ?_, by simp, by simp⟩
        · rw [runCycle_proceed n sched ifaces fetch h0 hs, hk]
          rfl
        · exact fun e he => probeIfaces_events_found n sched ifaces 1 e he
    · refine ⟨(probeIfaces n sched 1 ifaces).events, [], [], ?_, ?_, by simp, by simp⟩
      · rw [runCycle_silent_abort n sched ifaces fetch h0 hs]
        simp
      · exact fun e he => probeIfaces_events_found n sched ifaces 1 e he
  · exact ⟨[], [], [Event.stopped n],
      by rw [runCycle_entry_stop n sched ifaces fetch h0]; rfl,
      by simp, by simp, by simp⟩

/-- C9: on completion the set of removed addresses is exactly
`previousAddresses` minus `currentAddresses`, and a displayed entry is removed
whether it is the bare address or the address with a classification suffix:
in the scenario where cycle 1 finds .1 and .2 (with .1 identified and shown as
`"192.0.2.1 (АСА)"`) and cycle 2 finds .2 and .3, completion of cycle 2
removes exactly the .1 entry while .2 and .3 remain shown. -/
theorem completion_removal_diff :
    (∀ (old new : List String) (a : String),
      a ∈ setdiff1d old new ↔ (a ∈ old ∧ a ∉ new)) ∧
    (twoCycleTrace.foldl dispatch ⟨1, [], [], []⟩).items =
      ["192.0.2.2", "192.0.2.3"] := by
  constructor
  · intro old new a
    unfold setdiff1d
    rw [mem_sortTexts, List.mem_dedup, List.mem_filter]
    simp
  · decide

/-- C10: `stop()` only sets the `stop_search` flag: the collected address
list and revealer number are untouched, no event is emitted, and a second
`stop()` — or one issued when nothing is running — changes nothing more. -/
theorem stop_modifies_only_flag (r : Revealer) :
    (Revealer.stop r).1.ip_addresses = r.ip_addresses ∧
    (Revealer.stop r).1.number = r.number ∧
    (Revealer.stop r).1.stop_search = true ∧
    (Revealer.stop r).2 = [] ∧
    Revealer.stop (Revealer.stop r).1 = Revealer.stop r :=
  ⟨rfl, rfl, rfl, rfl, rfl⟩

end EPCRevealer
